import Mathlib

/-!
Verification of the HIOT monitoring/alerting engine.

The definitions below are a shallow embedding of the Python sources:
* `src/api/API.py` — the query API, in particular `get_alert_text` (the
  four-tier display classification) and `check_humidity` (the global
  check endpoint).
* `src/tbd/scheduler.py` — `HumidityMonitor`: the background monitor loop,
  its dedup maps, its humidity/connection passes and its lifecycle.
* `src/app/telegram_notifier.py` — `AlertLevel` and the notifier contract.
* `src/app/monitor_integration.py` — `trigger_immediate_check`.
* `src/telegram_responder/state_checker.py` — `Monitor._send_alert` and the
  responder lifecycle.

Timestamps are modelled as rational numbers of seconds; humidity values and
thresholds as rationals (the Python code compares floats and ints exactly,
and every comparison the claims touch is order-based, so ℚ is faithful).
-/

namespace HIOT

/-- Sensor row (`HumiditySensor` in `api/schemas.py`): id, name,
last-contact timestamp and the four per-sensor severity thresholds
(`overflow_level`, `alert_level`, `warning_level`, `critical_level`). -/
structure HumiditySensor where
  id : Int
  name : String
  last_connection : ℚ
  overflow_level : ℚ
  alert_level : ℚ
  warning_level : ℚ
  critical_level : ℚ
deriving Repr, DecidableEq

/-- Measurement row (`HumidityMeasurement` in `api/schemas.py`); only the
fields the monitoring core reads. -/
structure HumidityMeasurement where
  sensor_id : Int
  humidity : ℚ
  date : ℚ
deriving Repr, DecidableEq

/-- The four-tier display classification computed by the icon cascade in
`get_alert_text` (`api/API.py` lines 200-209).  Each constructor names the
icon the Python code assigns: `withinBounds` is the plant glyph, the default;
`aboveOverflow` the diver glyph; `belowAlert` the leaf; `belowWarning` the
fire; `belowCritical` the skull. -/
inductive DisplayClass where
  | withinBounds
  | aboveOverflow
  | belowAlert
  | belowWarning
  | belowCritical
deriving Repr, DecidableEq

/-- The icon cascade of `get_alert_text` (`api/API.py`): starting from the
default icon, each of the four `if` statements overwrites the icon when its
comparison holds, so the check written last wins.

    icon = plant
    if humidity > overflow_level: icon = diver
    if humidity < alert_level:    icon = leaf
    if humidity < warning_level:  icon = fire
    if humidity < critical_level: icon = skull
-/
def get_alert_text_class (s : HumiditySensor) (humidity : ℚ) : DisplayClass :=
  let icon := DisplayClass.withinBounds
  let icon := if humidity > s.overflow_level then DisplayClass.aboveOverflow else icon
  let icon := if humidity < s.alert_level then DisplayClass.belowAlert else icon
  let icon := if humidity < s.warning_level then DisplayClass.belowWarning else icon
  if humidity < s.critical_level then DisplayClass.belowCritical else icon

/-- The per-sensor firing condition of the `/humidity/check` endpoint
(`check_humidity` in `api/API.py`, lines 107-110): alert text is produced
for a sensor exactly when its latest measurement satisfies
`humidity > overflow_level or humidity < alert_level`. -/
def checkFires (s : HumiditySensor) (humidity : ℚ) : Bool :=
  decide (humidity > s.overflow_level) || decide (humidity < s.alert_level)

/-- The `/humidity/check` endpoint (`check_humidity` in `api/API.py`):
for each sensor with a latest measurement, the sensor contributes alert text
iff `checkFires`; sensors without a measurement contribute nothing.  The
alert text itself is cosmetic, so the result is modelled as the list of
(sensor, measurement) pairs whose alert text is concatenated. -/
def check_humidity (sensors : List (HumiditySensor × Option HumidityMeasurement)) :
    List (HumiditySensor × HumidityMeasurement) :=
  sensors.filterMap fun p =>
    match p.2 with
    | none => none
    | some m => if checkFires p.1 m.humidity then some (p.1, m) else none

/-- `AlertLevel` from `app/telegram_notifier.py` (glyphs elided). -/
inductive AlertLevel where
  | info
  | warning
  | critical
  | success
deriving Repr, DecidableEq

/-- The three alert kinds the spec's data model names.  The scheduler itself
has no such enum: its humidity pass (high and low alike) consults
`_last_humidity_alert` and its connection pass consults
`_last_connection_alert` (`tbd/scheduler.py` lines 47-49). -/
inductive AlertKind where
  | humidityHigh
  | humidityLow
  | connectionStale
deriving Repr, DecidableEq

/-- The two dedup maps of `HumidityMonitor` (`tbd/scheduler.py` lines 47-49):
`_last_humidity_alert` and `_last_connection_alert`, each mapping a sensor id
to the last-notified timestamp. -/
structure DedupState where
  last_humidity_alert : Int → Option ℚ
  last_connection_alert : Int → Option ℚ

/-- The fresh dedup state: both dicts start empty. -/
def dedupInit : DedupState :=
  ⟨fun _ => none, fun _ => none⟩

/-- `self.alert_cooldown = timedelta(hours=4)` (`tbd/scheduler.py` line 52),
in seconds. -/
def alert_cooldown : ℚ := 4 * 3600

/-- Which dedup dict the scheduler consults for a given alert kind: both
humidity kinds share `_last_humidity_alert`; staleness uses
`_last_connection_alert`. -/
def mapFor (st : DedupState) : AlertKind → (Int → Option ℚ)
  | AlertKind.humidityHigh => st.last_humidity_alert
  | AlertKind.humidityLow => st.last_humidity_alert
  | AlertKind.connectionStale => st.last_connection_alert

/-- The dedup decision the scheduler inlines at `tbd/scheduler.py`
lines 128-130 and 162-164: skip (return false) iff the sensor has an entry
in the relevant dict and `now - entry < alert_cooldown`; otherwise fire. -/
def shouldFire (st : DedupState) (sensorId : Int) (kind : AlertKind) (now : ℚ) : Bool :=
  match mapFor st kind sensorId with
  | none => true
  | some t => decide (alert_cooldown ≤ now - t)

/-- Recording a fire (`self._last_humidity_alert[sensor.id] = now` at line 190,
`self._last_connection_alert[sensor.id] = now` at line 145): the dict the
kind belongs to gets the entry; the other dict is untouched. -/
def markFired (st : DedupState) (sensorId : Int) (kind : AlertKind) (now : ℚ) : DedupState :=
  match kind with
  | AlertKind.humidityHigh =>
      { st with last_humidity_alert := fun i =>
          if i = sensorId then some now else st.last_humidity_alert i }
  | AlertKind.humidityLow =>
      { st with last_humidity_alert := fun i =>
          if i = sensorId then some now else st.last_humidity_alert i }
  | AlertKind.connectionStale =>
      { st with last_connection_alert := fun i =>
          if i = sensorId then some now else st.last_connection_alert i }

/-- Monitor configuration (`HumidityMonitor.__init__`): the two global
humidity thresholds and the connection threshold in minutes. -/
structure MonitorConfig where
  humidity_threshold_high : ℚ
  humidity_threshold_low : ℚ
  connection_threshold_minutes : ℚ
deriving Repr, DecidableEq

/-- The alert-worthiness test of the humidity pass (`tbd/scheduler.py`
line 160): `humidity > humidity_threshold_high or humidity < humidity_threshold_low`. -/
def humidityAlertWorthy (cfg : MonitorConfig) (humidity : ℚ) : Bool :=
  decide (humidity > cfg.humidity_threshold_high) || decide (humidity < cfg.humidity_threshold_low)

/-- Severity escalation (`tbd/scheduler.py` lines 171-174): level starts at
WARNING and becomes CRITICAL when `humidity > high * 1.15 or humidity < low * 0.85`. -/
def humidityAlertLevel (cfg : MonitorConfig) (humidity : ℚ) : AlertLevel :=
  if humidity > cfg.humidity_threshold_high * (115 / 100) ∨
      humidity < cfg.humidity_threshold_low * (85 / 100) then
    AlertLevel.critical
  else
    AlertLevel.warning

/-- Staleness test of the connection pass (`tbd/scheduler.py` lines 117-123):
a sensor is selected iff `last_connection < now - timedelta(minutes=connection_threshold_minutes)`. -/
def isStale (cfg : MonitorConfig) (now last_connection : ℚ) : Bool :=
  decide (last_connection < now - cfg.connection_threshold_minutes * 60)

/-- One sensor's step of `_check_humidity_levels` (`tbd/scheduler.py`
lines 152-190), with the notifier's verdict `alert_sent` supplied as an
input.  Returns the new `_last_humidity_alert` dict and whether a notify
attempt was made:
* no reading → skip;
* reading not alert-worthy → skip;
* alert-worthy but a recent entry exists (`now - entry < cooldown`) → skip;
* otherwise attempt, and record `now` in the dict iff `alert_sent`. -/
def checkHumidityStep (cfg : MonitorConfig) (m : Int → Option ℚ) (sensorId : Int)
    (humidity : Option ℚ) (now : ℚ) (alert_sent : Bool) : (Int → Option ℚ) × Bool :=
  match humidity with
  | none => (m, false)
  | some h =>
    if humidityAlertWorthy cfg h then
      match m sensorId with
      | some t =>
        if now - t < alert_cooldown then (m, false)
        else ((if alert_sent then fun i => if i = sensorId then some now else m i else m), true)
      | none =>
        ((if alert_sent then fun i => if i = sensorId then some now else m i else m), true)
    else (m, false)

/-- `self.min_alert_interval = 60 * 60 * 4` (`state_checker.py` line 19). -/
def min_alert_interval : ℚ := 60 * 60 * 4

/-- `Monitor._send_alert` (`telegram_responder/state_checker.py` lines 48-79),
with the per-recipient outcomes supplied as a list of booleans.  Returns the
new `last_alert_time` and whether sends were attempted: if a previous alert
time exists and `now - last_alert_time < min_alert_interval` the alert is
skipped; otherwise every recipient is attempted and `last_alert_time` is set
to `now` iff at least one send succeeded (`successful_sends > 0`). -/
def sendAlert (last_alert_time : Option ℚ) (now : ℚ) (sends : List Bool) :
    Option ℚ × Bool :=
  match last_alert_time with
  | some t =>
    if now - t < min_alert_interval then (last_alert_time, false)
    else ((if sends.any id then some now else last_alert_time), true)
  | none => ((if sends.any id then some now else last_alert_time), true)

/-- What a lifecycle call did, beyond returning normally. -/
inductive LifecycleEffect where
  | noop
  | spawnedLoop
  | cancelledLoop
deriving Repr, DecidableEq

/-- `HumidityMonitor.start` (`tbd/scheduler.py` lines 57-70): the state is
whether `_monitor_task` is set.  If a task exists the call logs a warning and
returns with nothing changed; otherwise it spawns the monitoring loop and
records the task.  (`Monitor.start_async` in `state_checker.py` lines 111-121
has the same shape.) -/
def monitorStart (running : Bool) : Bool × LifecycleEffect :=
  if running then (running, LifecycleEffect.noop)
  else (true, LifecycleEffect.spawnedLoop)

/-- `HumidityMonitor.stop` (`tbd/scheduler.py` lines 72-84): if no task is
set the call logs a warning and returns with nothing changed; otherwise it
cancels the task, awaits it (swallowing the cancellation), and clears
`_monitor_task`. -/
def monitorStop (running : Bool) : Bool × LifecycleEffect :=
  if running then (false, LifecycleEffect.cancelledLoop)
  else (running, LifecycleEffect.noop)

/-- One iteration of `_monitoring_loop` (`tbd/scheduler.py` lines 86-101),
with the cycle's outcome supplied: an exception from `_check_all_sensors` is
caught and turned into a system alert (`send_system_alert_async`), and in
either case the loop sleeps and proceeds to the next iteration.  Returns the
system-alert body, if one was sent, and whether the loop continues. -/
def monitoringLoopIteration (cycle : Except String Unit) : Option String × Bool :=
  match cycle with
  | Except.ok _ => (none, true)
  | Except.error e => (some ("Monitoring service encountered an error: " ++ e), true)

/-- `trigger_immediate_check` (`app/monitor_integration.py` lines 121-131),
with the cycle's outcome supplied: an exception from `_check_all_sensors` is
re-raised to the HTTP caller as a 500 error; success returns a status body. -/
def trigger_immediate_check (cycle : Except String Unit) : Except (Nat × String) String :=
  match cycle with
  | Except.ok _ => Except.ok "check completed"
  | Except.error e => Except.error (500, "Check failed: " ++ e)

/-!  ## Theorems  -/

/-- C4, counterexample.  The claim says any value above `overflow_level` is
classified above-overflow for every relative ordering of the other three
thresholds.  But the icon cascade applies the low-side checks after the
overflow check, so a misordered sensor with `critical_level = 80 >
overflow_level = 60` classifies the value 70 as below-critical even though
70 > 60. -/
theorem overflow_classification_cex :
    get_alert_text_class
      { id := 1, name := "A", last_connection := 0,
        overflow_level := 60, alert_level := 0, warning_level := 0,
        critical_level := 80 } 70 = DisplayClass.belowCritical ∧
    (70 : ℚ) > 60 := by
  constructor
  · rfl
  · norm_num

/-- C4, amended.  A value above `overflow_level` is classified
above-overflow provided it is not also strictly below any of the three
low-side thresholds — in particular whenever the intended ordering
`critical_level < warning_level < alert_level < overflow_level` holds. -/
theorem above_overflow_classification_amended (s : HumiditySensor) (h : ℚ)
    (ho : h > s.overflow_level) (ha : s.alert_level ≤ h)
    (hw : s.warning_level ≤ h) (hc : s.critical_level ≤ h) :
    get_alert_text_class s h = DisplayClass.aboveOverflow := by
  simp [get_alert_text_class, ho, not_lt.2 ha, not_lt.2 hw, not_lt.2 hc]

/-- Witness for `above_overflow_classification_amended` at a concrete
well-ordered sensor. -/
theorem above_overflow_classification_amended_witness :
    get_alert_text_class
      { id := 1, name := "A", last_connection := 0,
        overflow_level := 60, alert_level := 30, warning_level := 20,
        critical_level := 10 } 70 = DisplayClass.aboveOverflow :=
  above_overflow_classification_amended _ 70 (by norm_num) (by norm_num)
    (by norm_num) (by norm_num)

/-- C5.  Any value strictly below `critical_level` is classified
below-critical: the critical check is applied last in the cascade, so it
overrides the warning, alert and overflow icons (most-severe-first
tie-break). -/
theorem below_critical_classification (s : HumiditySensor) (h : ℚ)
    (hc : h < s.critical_level) :
    get_alert_text_class s h = DisplayClass.belowCritical := by
  simp [get_alert_text_class, hc]

/-- Witness for `below_critical_classification`: value 8 on the spec's
scenario sensor (critical 10, warning 20, alert 30, overflow 60), which is
also below warning and alert. -/
theorem below_critical_classification_witness :
    get_alert_text_class
      { id := 1, name := "A", last_connection := 0,
        overflow_level := 60, alert_level := 30, warning_level := 20,
        critical_level := 10 } 8 = DisplayClass.belowCritical :=
  below_critical_classification _ 8 (by norm_num)

/-- C8.  The lifecycle is idempotent at both ends and total (every call
returns a value, none raises): `start` on a running monitor changes nothing
and spawns no second loop; `stop` on a stopped monitor changes nothing;
`stop` on a running monitor cancels the loop and lands in the stopped
state; `start` on a stopped monitor spawns the loop. -/
theorem lifecycle_idempotent :
    monitorStart true = (true, LifecycleEffect.noop) ∧
    monitorStop false = (false, LifecycleEffect.noop) ∧
    monitorStop true = (false, LifecycleEffect.cancelledLoop) ∧
    monitorStart false = (true, LifecycleEffect.spawnedLoop) := by
  refine ⟨rfl, rfl, rfl, rfl⟩

/-- C9.  The scheduled path absorbs errors: every iteration of the
monitoring loop continues to the next cycle, and a failing cycle is
reported as a system alert rather than surfaced; the manual path
propagates: `trigger_immediate_check` returns a 500 error carrying the
cycle's message exactly when the cycle fails. -/
theorem errors_absorbed_scheduled_propagated_manual :
    (∀ r : Except String Unit, (monitoringLoopIteration r).2 = true) ∧
    (∀ e, monitoringLoopIteration (Except.error e) =
      (some ("Monitoring service encountered an error: " ++ e), true)) ∧
    monitoringLoopIteration (Except.ok ()) = (none, true) ∧
    (∀ e, trigger_immediate_check (Except.error e) =
      Except.error (500, "Check failed: " ++ e)) ∧
    trigger_immediate_check (Except.ok ()) = Except.ok "check completed" := by
  refine ⟨fun r => ?_, fun e => rfl, rfl, fun e => rfl, rfl⟩
  cases r <;> rfl

/-- The dict `markFired` writes for a kind is exactly the dict `shouldFire`
reads for that kind, and the written entry is the new timestamp. -/
theorem mapFor_markFired_self (st : DedupState) (sensorId : Int)
    (kind : AlertKind) (t : ℚ) :
    mapFor (markFired st sensorId kind t) kind sensorId = some t := by
  cases kind <;> simp [mapFor, markFired]

/-- C2.  The dedup decision: fires when the relevant dict has no entry for
the sensor; is suppressed exactly when a recorded fire lies less than 4
hours (14400 s) before `now`; and after `markFired` at time `t`, fires again
exactly once at least 4 hours have elapsed. -/
theorem shouldFire_cooldown_semantics (st : DedupState) (sensorId : Int)
    (kind : AlertKind) (now t : ℚ) :
    (mapFor st kind sensorId = none →
      shouldFire st sensorId kind now = true) ∧
    (mapFor st kind sensorId = some t →
      (shouldFire st sensorId kind now = false ↔ now - t < alert_cooldown)) ∧
    (shouldFire (markFired st sensorId kind t) sensorId kind now = true ↔
      alert_cooldown ≤ now - t) := by
  refine ⟨fun hnone => ?_, fun hsome => ?_, ?_⟩
  · simp [shouldFire, hnone]
  · simp [shouldFire, hsome, not_le]
  · simp [shouldFire, mapFor_markFired_self]

/-- Witness for `shouldFire_cooldown_semantics`: fresh pair fires at once;
a fire recorded at time 0 suppresses at one hour and fires again at exactly
four hours. -/
theorem shouldFire_cooldown_semantics_witness :
    shouldFire dedupInit 1 AlertKind.humidityLow 0 = true ∧
    (shouldFire (markFired dedupInit 1 AlertKind.humidityLow 0) 1
      AlertKind.humidityLow 3600 = false) ∧
    (shouldFire (markFired dedupInit 1 AlertKind.humidityLow 0) 1
      AlertKind.humidityLow 14400 = true) := by
  refine ⟨(shouldFire_cooldown_semantics dedupInit 1 AlertKind.humidityLow 0 0).1 rfl,
    ?_, ?_⟩
  · exact ((shouldFire_cooldown_semantics (markFired dedupInit 1 AlertKind.humidityLow 0)
      1 AlertKind.humidityLow 3600 0).2.1 rfl).mpr (by norm_num [alert_cooldown])
  · exact (shouldFire_cooldown_semantics dedupInit 1 AlertKind.humidityLow 14400 0).2.2.mpr
      (by norm_num [alert_cooldown])

/-- C3, counterexample.  The claim says a HumidityHigh notification within
the last 4 hours does not suppress a HumidityLow notification for the same
sensor.  In the code both humidity kinds share `_last_humidity_alert`:
after a HumidityHigh fire at time 0, a HumidityLow check one hour later is
suppressed, while on the fresh state it would fire. -/
theorem humidity_kinds_share_cooldown_cex :
    shouldFire (markFired dedupInit 1 AlertKind.humidityHigh 0) 1
      AlertKind.humidityLow 3600 = false ∧
    shouldFire dedupInit 1 AlertKind.humidityLow 3600 = true := by
  constructor
  · simp [shouldFire, mapFor, markFired, dedupInit, alert_cooldown]
  · rfl

/-- C3, amended.  `ConnectionStale` is deduplicated independently of the two
humidity kinds (recording either side neither starts nor consults the
other's cooldown), and distinct sensors are always independent; but
`HumidityHigh` and `HumidityLow` share one per-sensor cooldown entry:
recording either humidity kind installs the timestamp consulted by both. -/
theorem dedup_kind_independence_amended (st : DedupState) (sensorId other : Int)
    (t now : ℚ) :
    (shouldFire (markFired st sensorId AlertKind.connectionStale t) sensorId
        AlertKind.humidityHigh now = shouldFire st sensorId AlertKind.humidityHigh now) ∧
    (shouldFire (markFired st sensorId AlertKind.connectionStale t) sensorId
        AlertKind.humidityLow now = shouldFire st sensorId AlertKind.humidityLow now) ∧
    (shouldFire (markFired st sensorId AlertKind.humidityHigh t) sensorId
        AlertKind.connectionStale now = shouldFire st sensorId AlertKind.connectionStale now) ∧
    (shouldFire (markFired st sensorId AlertKind.humidityLow t) sensorId
        AlertKind.connectionStale now = shouldFire st sensorId AlertKind.connectionStale now) ∧
    (mapFor (markFired st sensorId AlertKind.humidityHigh t) AlertKind.humidityLow sensorId
      = some t) ∧
    (mapFor (markFired st sensorId AlertKind.humidityLow t) AlertKind.humidityHigh sensorId
      = some t) ∧
    (sensorId ≠ other → ∀ kind kind2 : AlertKind,
      shouldFire (markFired st sensorId kind t) other kind2 now =
        shouldFire st other kind2 now) := by
  refine ⟨rfl, rfl, rfl, rfl, by simp [mapFor, markFired], by simp [mapFor, markFired],
    fun hne kind kind2 => ?_⟩
  cases kind <;> cases kind2 <;>
    simp [shouldFire, mapFor, markFired, Ne.symm hne]

/-- Witness for `dedup_kind_independence_amended` at sensors 1 and 2. -/
theorem dedup_kind_independence_amended_witness :
    shouldFire (markFired dedupInit 1 AlertKind.humidityHigh 0) 2
      AlertKind.humidityHigh 3600 = shouldFire dedupInit 2 AlertKind.humidityHigh 3600 :=
  (dedup_kind_independence_amended dedupInit 1 2 0 3600).2.2.2.2.2.2
    (by norm_num) AlertKind.humidityHigh AlertKind.humidityHigh

/-- `checkFires` as a proposition: the check endpoint's condition holds iff
the value is above `overflow_level` or below `alert_level`. -/
theorem checkFires_iff (s : HumiditySensor) (h : ℚ) :
    checkFires s h = true ↔ (h > s.overflow_level ∨ h < s.alert_level) := by
  simp [checkFires]

/-- C6.  The check endpoint produces alert text for a sensor's latest
measurement iff the value is above the sensor's `overflow_level` or below
its `alert_level`; a value between the two bounds (which covers the
warning/alert and critical/warning ranges) contributes nothing. -/
theorem check_endpoint_fires_iff_outer_bounds
    (sensors : List (HumiditySensor × Option HumidityMeasurement))
    (s : HumiditySensor) (m : HumidityMeasurement) :
    ((s, m) ∈ check_humidity sensors ↔
      ((s, some m) ∈ sensors ∧
        (m.humidity > s.overflow_level ∨ m.humidity < s.alert_level))) ∧
    (s.alert_level ≤ m.humidity → m.humidity ≤ s.overflow_level →
      (s, m) ∉ check_humidity sensors) := by
  have hiff : (s, m) ∈ check_humidity sensors ↔
      ((s, some m) ∈ sensors ∧
        (m.humidity > s.overflow_level ∨ m.humidity < s.alert_level)) := by
    constructor
    · intro hmem
      rcases List.mem_filterMap.mp hmem with ⟨⟨s2, om⟩, hp, hf⟩
      cases om with
      | none => simp [check_humidity] at hf
      | some m2 =>
        dsimp only at hf
        split_ifs at hf with hc
        · simp only [Option.some.injEq, Prod.mk.injEq] at hf
          obtain ⟨rfl, rfl⟩ := hf
          exact ⟨hp, (checkFires_iff s2 m2.humidity).mp hc⟩
    · rintro ⟨hmem, hcond⟩
      refine List.mem_filterMap.mpr ⟨(s, some m), hmem, ?_⟩
      dsimp only
      rw [if_pos ((checkFires_iff s m.humidity).mpr hcond)]
  refine ⟨hiff, fun ha ho hmem => ?_⟩
  rcases (hiff.mp hmem).2 with hgt | hlt
  · exact absurd hgt (not_lt.2 ho)
  · exact absurd hlt (not_lt.2 ha)

/-- Witness for `check_endpoint_fires_iff_outer_bounds`: a one-sensor list
whose latest value 25 is below the alert level 30, so the sensor appears in
the check result; and a value 45 between alert 30 and overflow 60 does not. -/
theorem check_endpoint_fires_iff_outer_bounds_witness :
    ({ id := 1, name := "A", last_connection := 0, overflow_level := 60,
        alert_level := 30, warning_level := 20, critical_level := 10 },
      ({ sensor_id := 1, humidity := 25, date := 0 } : HumidityMeasurement)) ∈
      check_humidity
        [({ id := 1, name := "A", last_connection := 0, overflow_level := 60,
            alert_level := 30, warning_level := 20, critical_level := 10 },
          some { sensor_id := 1, humidity := 25, date := 0 })] ∧
    ({ id := 1, name := "A", last_connection := 0, overflow_level := 60,
        alert_level := 30, warning_level := 20, critical_level := 10 },
      ({ sensor_id := 1, humidity := 45, date := 0 } : HumidityMeasurement)) ∉
      check_humidity
        [({ id := 1, name := "A", last_connection := 0, overflow_level := 60,
            alert_level := 30, warning_level := 20, critical_level := 10 },
          some { sensor_id := 1, humidity := 45, date := 0 })] := by
  constructor
  · exact (check_endpoint_fires_iff_outer_bounds _ _ _).1.mpr
      ⟨List.mem_singleton.mpr rfl, Or.inr (by norm_num)⟩
  · exact (check_endpoint_fires_iff_outer_bounds _ _ _).2 (by norm_num) (by norm_num)

/-- C10.  Every comparison at the public interface is strict, so exact
boundary values do not alert: the check endpoint is silent at
`overflow_level` and at `alert_level` (for a well-ordered sensor), the
humidity pass is silent exactly at either global threshold, and a sensor
whose `last_connection` is exactly `now - connection_threshold` is not
selected as stale. -/
theorem boundary_equality_no_alert :
    (∀ s : HumiditySensor, s.alert_level ≤ s.overflow_level →
      checkFires s s.overflow_level = false ∧ checkFires s s.alert_level = false) ∧
    (∀ cfg : MonitorConfig,
        cfg.humidity_threshold_low ≤ cfg.humidity_threshold_high →
      humidityAlertWorthy cfg cfg.humidity_threshold_high = false ∧
      humidityAlertWorthy cfg cfg.humidity_threshold_low = false) ∧
    (∀ (cfg : MonitorConfig) (now : ℚ),
      isStale cfg now (now - cfg.connection_threshold_minutes * 60) = false) := by
  refine ⟨fun s hso => ⟨?_, ?_⟩, fun cfg hlh => ⟨?_, ?_⟩, fun cfg now => ?_⟩ <;>
    simp [checkFires, humidityAlertWorthy, isStale] <;>
    linarith

/-- Witness for `boundary_equality_no_alert` at the default configuration:
value 60 on a sensor with overflow 60 and alert 30 does not fire the check
endpoint, humidity exactly 70 does not trigger the pass with global
thresholds 70/30, and a sensor last heard exactly 30 minutes before `now`
is not stale. -/
theorem boundary_equality_no_alert_witness :
    checkFires
      { id := 1, name := "A", last_connection := 0, overflow_level := 60,
        alert_level := 30, warning_level := 20, critical_level := 10 } 60 = false ∧
    humidityAlertWorthy
      { humidity_threshold_high := 70, humidity_threshold_low := 30,
        connection_threshold_minutes := 30 } 70 = false ∧
    isStale
      { humidity_threshold_high := 70, humidity_threshold_low := 30,
        connection_threshold_minutes := 30 } 1800 (1800 - 30 * 60) = false :=
  ⟨(boundary_equality_no_alert.1 _ (by norm_num)).1,
   (boundary_equality_no_alert.2.1 _ (by norm_num)).1,
   boundary_equality_no_alert.2.2 _ 1800⟩

/-- C7.  Among alert-worthy values, the notification severity is CRITICAL
iff the value exceeds `high * 1.15` or falls below `low * 0.85`, and
WARNING otherwise; in particular `high * 1.2` is alert-worthy and CRITICAL,
and `high * 1.05` is alert-worthy and WARNING (for positive, ordered global
thresholds). -/
theorem severity_escalation_rule (cfg : MonitorConfig)
    (hh : 0 < cfg.humidity_threshold_high)
    (hlh : cfg.humidity_threshold_low ≤ cfg.humidity_threshold_high) :
    (∀ h : ℚ, humidityAlertWorthy cfg h = true →
      ((humidityAlertLevel cfg h = AlertLevel.critical ↔
        (h > cfg.humidity_threshold_high * (115 / 100) ∨
          h < cfg.humidity_threshold_low * (85 / 100))) ∧
       (humidityAlertLevel cfg h = AlertLevel.warning ↔
        ¬(h > cfg.humidity_threshold_high * (115 / 100) ∨
          h < cfg.humidity_threshold_low * (85 / 100))))) ∧
    humidityAlertWorthy cfg (cfg.humidity_threshold_high * (6 / 5)) = true ∧
    humidityAlertLevel cfg (cfg.humidity_threshold_high * (6 / 5)) =
      AlertLevel.critical ∧
    humidityAlertWorthy cfg (cfg.humidity_threshold_high * (21 / 20)) = true ∧
    humidityAlertLevel cfg (cfg.humidity_threshold_high * (21 / 20)) =
      AlertLevel.warning := by
  refine ⟨fun h _ => ?_, ?_, ?_, ?_, ?_⟩
  · unfold humidityAlertLevel
    split_ifs with hc <;> simp [hc]
  · simp only [humidityAlertWorthy, Bool.or_eq_true, decide_eq_true_eq]
    left; nlinarith
  · unfold humidityAlertLevel
    rw [if_pos (Or.inl (by nlinarith))]
  · simp only [humidityAlertWorthy, Bool.or_eq_true, decide_eq_true_eq]
    left; nlinarith
  · unfold humidityAlertLevel
    rw [if_neg]
    push_neg
    constructor <;> nlinarith

/-- Witness for `severity_escalation_rule` at the default global thresholds
70/30: value `70 * 1.2 = 84` is CRITICAL, value `70 * 1.05 = 73.5` is
WARNING. -/
theorem severity_escalation_rule_witness :
    humidityAlertLevel
      { humidity_threshold_high := 70, humidity_threshold_low := 30,
        connection_threshold_minutes := 30 } (70 * (6 / 5)) =
      AlertLevel.critical ∧
    humidityAlertLevel
      { humidity_threshold_high := 70, humidity_threshold_low := 30,
        connection_threshold_minutes := 30 } (70 * (21 / 20)) =
      AlertLevel.warning :=
  ⟨(severity_escalation_rule _ (by norm_num) (by norm_num)).2.2.1,
   (severity_escalation_rule _ (by norm_num) (by norm_num)).2.2.2.2⟩

/-- When a humidity-pass step attempts to notify, the alert-worthiness held,
any prior entry was already out of cooldown, and the new dict is the update
iff the send succeeded. -/
theorem checkHumidityStep_attempt (cfg : MonitorConfig) (m : Int → Option ℚ)
    (sensorId : Int) (h now : ℚ) (sent : Bool)
    (hatt : (checkHumidityStep cfg m sensorId (some h) now sent).2 = true) :
    humidityAlertWorthy cfg h = true ∧
    (m sensorId = none ∨ ∃ t, m sensorId = some t ∧ alert_cooldown ≤ now - t) ∧
    (checkHumidityStep cfg m sensorId (some h) now sent).1 =
      (if sent then fun i => if i = sensorId then some now else m i else m) := by
  cases hw : humidityAlertWorthy cfg h with
  | false => simp [checkHumidityStep, hw] at hatt
  | true =>
    cases hm : m sensorId with
    | none => exact ⟨rfl, Or.inl rfl, by simp [checkHumidityStep, hw, hm]⟩
    | some t =>
      by_cases hcd : now - t < alert_cooldown
      · simp [checkHumidityStep, hw, hm, hcd] at hatt
      · exact ⟨rfl, Or.inr ⟨t, rfl, not_lt.1 hcd⟩,
          by simp [checkHumidityStep, hw, hm, hcd]⟩

/-- When `_send_alert` attempts its sends, any prior alert time was already
out of the rate-limit window, and the new alert time is `now` iff at least
one send succeeded. -/
theorem sendAlert_attempt (lat : Option ℚ) (now : ℚ) (sends : List Bool)
    (hatt : (sendAlert lat now sends).2 = true) :
    (lat = none ∨ ∃ t, lat = some t ∧ min_alert_interval ≤ now - t) ∧
    (sendAlert lat now sends).1 = (if sends.any id then some now else lat) := by
  cases lat with
  | none => exact ⟨Or.inl rfl, rfl⟩
  | some t =>
    by_cases hrl : now - t < min_alert_interval
    · simp [sendAlert, hrl] at hatt
    · exact ⟨Or.inr ⟨t, rfl, not_lt.1 hrl⟩, by simp [sendAlert, hrl]⟩

/-- C1.  Dedup state advances iff the notify attempt reports a successful
delivery.  For the scheduler's humidity pass: an attempted notification
records `now` for the sensor iff `alert_sent`; a failed attempt leaves the
dict untouched, and the step re-attempts at any later cycle time.  For the
responder's `_send_alert`: an attempted alert moves `last_alert_time` to
`now` iff at least one recipient send succeeded; if every send failed the
state is unchanged and any later call again attempts its sends (no
suppression across consecutive all-failed cycles). -/
theorem dedup_advances_only_on_successful_send
    (cfg : MonitorConfig) (m : Int → Option ℚ) (sensorId : Int)
    (h now now2 : ℚ) (sent : Bool)
    (lat : Option ℚ) (sends sends2 : List Bool) :
    ((checkHumidityStep cfg m sensorId (some h) now sent).2 = true →
      (((checkHumidityStep cfg m sensorId (some h) now sent).1 sensorId =
          some now) ↔ sent = true)) ∧
    ((checkHumidityStep cfg m sensorId (some h) now false).2 = true →
      (checkHumidityStep cfg m sensorId (some h) now false).1 = m) ∧
    ((checkHumidityStep cfg m sensorId (some h) now false).2 = true →
      now ≤ now2 →
      checkHumidityStep cfg m sensorId (some h) now2 false = (m, true)) ∧
    ((sendAlert lat now sends).2 = true →
      (((sendAlert lat now sends).1 = some now) ↔ sends.any id = true)) ∧
    ((sendAlert lat now sends).2 = true → sends.any id = false →
      (sendAlert lat now sends).1 = lat) ∧
    ((sendAlert lat now sends).2 = true → sends.any id = false → now ≤ now2 →
      (sendAlert lat now2 sends2).2 = true) := by
  refine ⟨fun hatt => ?_, fun hatt => ?_, fun hatt hle => ?_,
    fun hatt => ?_, fun hatt hfail => ?_, fun hatt hfail hle => ?_⟩
  · obtain ⟨_, hcase, heq⟩ := checkHumidityStep_attempt cfg m sensorId h now sent hatt
    rw [heq]
    cases sent with
    | true => simp
    | false =>
      rw [if_neg Bool.false_ne_true]
      refine iff_of_false (fun hnow => ?_) Bool.false_ne_true
      rcases hcase with hnone | ⟨t, hsome, hcd⟩
      · rw [hnone] at hnow; exact Option.noConfusion hnow
      · rw [hsome] at hnow
        obtain rfl : t = now := Option.some.inj hnow
        rw [sub_self] at hcd
        norm_num [alert_cooldown] at hcd
  · obtain ⟨_, _, heq⟩ := checkHumidityStep_attempt cfg m sensorId h now false hatt
    simpa using heq
  · obtain ⟨hw, hcase, _⟩ := checkHumidityStep_attempt cfg m sensorId h now false hatt
    rcases hcase with hnone | ⟨t, hsome, hcd⟩
    · simp [checkHumidityStep, hw, hnone]
    · have hcd2 : ¬ now2 - t < alert_cooldown := not_lt.2 (by linarith)
      simp [checkHumidityStep, hw, hsome, hcd2]
  · obtain ⟨hcase, heq⟩ := sendAlert_attempt lat now sends hatt
    rw [heq]
    cases hany : sends.any id with
    | true => simp
    | false =>
      rw [if_neg Bool.false_ne_true]
      refine iff_of_false (fun hnow => ?_) Bool.false_ne_true
      rcases hcase with hnone | ⟨t, hsome, hrl⟩
      · rw [hnone] at hnow; exact Option.noConfusion hnow
      · rw [hsome] at hnow
        obtain rfl : t = now := Option.some.inj hnow
        rw [sub_self] at hrl
        norm_num [min_alert_interval] at hrl
  · obtain ⟨_, heq⟩ := sendAlert_attempt lat now sends hatt
    rw [heq, if_neg (by simp [hfail])]
  · obtain ⟨hcase, _⟩ := sendAlert_attempt lat now sends hatt
    rcases hcase with hnone | ⟨t, hsome, hrl⟩
    · simp [sendAlert, hnone]
    · have hrl2 : ¬ now2 - t < min_alert_interval := not_lt.2 (by linarith)
      simp [sendAlert, hsome, hrl2]

/-- Witness for `dedup_advances_only_on_successful_send`: on an empty dedup
dict, sensor 1 at value 80 (thresholds 70/30) attempts at time 0; with the
send failed the dict stays empty and the step at time 300 (the next cycle)
attempts again; likewise a fully-failed `_send_alert` leaves
`last_alert_time` unset. -/
theorem dedup_advances_only_on_successful_send_witness :
    (checkHumidityStep ⟨70, 30, 30⟩ (fun _ => none) 1 (some 80) 0 false).1 =
      (fun _ => none) ∧
    checkHumidityStep ⟨70, 30, 30⟩ (fun _ => none) 1 (some 80) 300 false =
      (fun _ => none, true) ∧
    (sendAlert none 0 [false, false]).1 = none := by
  have hatt :
      (checkHumidityStep ⟨70, 30, 30⟩ (fun _ => none) 1 (some 80) 0 false).2 = true := by
    simp [checkHumidityStep, humidityAlertWorthy]
    norm_num
  have hatt2 : (sendAlert (none : Option ℚ) 0 [false, false]).2 = true := rfl
  refine ⟨?_, ?_, ?_⟩
  · exact (dedup_advances_only_on_successful_send ⟨70, 30, 30⟩ (fun _ => none) 1 80 0 0
      false none [] []).2.1 hatt
  · exact (dedup_advances_only_on_successful_send ⟨70, 30, 30⟩ (fun _ => none) 1 80 0 300
      false none [] []).2.2.1 hatt (by norm_num)
  · exact (dedup_advances_only_on_successful_send ⟨70, 30, 30⟩ (fun _ => none) 1 80 0 0
      false none [false, false] []).2.2.2.2.1 hatt2 rfl

end HIOT
